import Mathlib

/-!
Shallow embedding of the authentication gate of the api-openai repository.

The gate lives in:
  - src/backend/config/settings.py       (Settings.is_auth_configured)
  - src/backend/services/auth_service.py (AuthService.authenticate_user, validate_token)
  - src/backend/middleware/auth_middleware.py (verify_access_key, optional_auth)
  - src/server.py                        (legacy verify_access_key, authenticate)

Python `raise HTTPException(...)` is embedded as `Except.error`; a normal
return is `Except.ok`.  `Optional[str]` becomes `Option String`.  Python
truthiness of an optional string (`not auth_key`, `bool(self.ACCESS_KEY)`)
is made explicit: `None` and `""` are falsy, every other string is truthy.
-/

/-- FastAPI HTTPException as raised by the gate: a status code and a detail
message. -/
structure HTTPException where
  status_code : Nat
  detail : String
deriving Repr, DecidableEq

/-- Pydantic model AuthRequest (src/backend/models/auth.py): the login body. -/
structure AuthRequest where
  access_key : String
deriving Repr, DecidableEq

/-- Pydantic model AuthResponse (src/backend/models/auth.py): the login
success payload. -/
structure AuthResponse where
  authenticated : Bool
  message : String
  token : Option String
deriving Repr, DecidableEq

/-- The slice of Settings (src/backend/config/settings.py) the gate reads:
`ACCESS_KEY: Optional[str] = os.getenv("ACCESS_KEY")`. -/
structure Settings where
  ACCESS_KEY : Option String
deriving Repr, DecidableEq

/-- Python truthiness of an `Optional[str]`: `None` and the empty string are
falsy, every other string is truthy. -/
def pyTruthy (s : Option String) : Bool :=
  match s with
  | none => false
  | some k => k != ""

/-- Settings.is_auth_configured (settings.py lines 49-52):
`return bool(self.ACCESS_KEY)`. -/
def Settings.is_auth_configured (s : Settings) : Bool :=
  pyTruthy s.ACCESS_KEY

/-- AuthService.authenticate_user (src/backend/services/auth_service.py,
lines 27-43): 503 when not configured, success echoing the submitted key as
token when it equals ACCESS_KEY, 403 otherwise. -/
def AuthService.authenticate_user (settings : Settings) (auth_request : AuthRequest) :
    Except HTTPException AuthResponse :=
  if ¬ settings.is_auth_configured then
    Except.error ⟨503, "Authentication not configured. Please set ACCESS_KEY."⟩
  else if some auth_request.access_key == settings.ACCESS_KEY then
    Except.ok ⟨true, "Authentication successful", some auth_request.access_key⟩
  else
    Except.error ⟨403, "Invalid access key"⟩

/-- AuthService.validate_token (auth_service.py lines 46-59): false when not
configured, else `token == settings.ACCESS_KEY`. -/
def AuthService.validate_token (settings : Settings) (token : String) : Bool :=
  if ¬ settings.is_auth_configured then
    false
  else
    some token == settings.ACCESS_KEY

/-- verify_access_key (src/backend/middleware/auth_middleware.py, lines
17-50): 503 when not configured, 401 when no credentials, 403 when
validate_token rejects, else the credential string. -/
def verify_access_key (settings : Settings) (credentials : Option String) :
    Except HTTPException String :=
  if ¬ settings.is_auth_configured then
    Except.error ⟨503, "Authentication not configured. Please set ACCESS_KEY."⟩
  else
    match credentials with
    | none => Except.error ⟨401, "Authentication required. Please provide access key."⟩
    | some c =>
      if ¬ AuthService.validate_token settings c then
        Except.error ⟨403, "Invalid access key."⟩
      else
        Except.ok c

/-- optional_auth (auth_middleware.py lines 53-71): None when no credentials
or not configured, the credential when validate_token accepts, else None. -/
def optional_auth (settings : Settings) (credentials : Option String) :
    Option String :=
  match credentials with
  | none => none
  | some c =>
    if ¬ settings.is_auth_configured then
      none
    else if AuthService.validate_token settings c then
      some c
    else
      none

/-- Legacy server.py verify_access_key (lines 98-117), the monolithic guard:
`auth_key = os.getenv('ACCESS_KEY')`, 503 when `not auth_key`, 401 when no
credentials, 403 when `credentials.credentials != auth_key`, else the
credential. -/
def Server.verify_access_key (auth_key : Option String) (credentials : Option String) :
    Except HTTPException String :=
  if ¬ pyTruthy auth_key then
    Except.error ⟨503, "Authentication not configured. Please set ACCESS_KEY."⟩
  else
    match credentials with
    | none => Except.error ⟨401, "Authentication required. Please provide access key."⟩
    | some c =>
      if some c != auth_key then
        Except.error ⟨403, "Invalid access key."⟩
      else
        Except.ok c

/-- Legacy server.py authenticate, the /auth handler (lines 134-153): 503
when `not auth_key`, success echoing the submitted key when it equals
auth_key, 403 otherwise. -/
def Server.authenticate (auth_key : Option String) (request : AuthRequest) :
    Except HTTPException AuthResponse :=
  if ¬ pyTruthy auth_key then
    Except.error ⟨503, "Authentication not configured. Please set ACCESS_KEY."⟩
  else if some request.access_key == auth_key then
    Except.ok ⟨true, "Authentication successful", some request.access_key⟩
  else
    Except.error ⟨403, "Invalid access key"⟩

/-- One inbound gate call: the four operations the gate exposes. -/
inductive GateCall where
  | authUser (r : AuthRequest)
  | validate (t : String)
  | verify (c : Option String)
  | optionalAuth (c : Option String)
deriving Repr, DecidableEq

/-- The result of one gate call. -/
inductive GateResult where
  | authR (x : Except HTTPException AuthResponse)
  | boolR (b : Bool)
  | tokenR (x : Except HTTPException String)
  | optR (x : Option String)
deriving Repr

/-- One gate call as a state transformer over the process configuration.
The Python code only ever reads `settings`; no assignment to it occurs
anywhere in the gate, so each operation returns the configuration it was
given together with its result. -/
def GateStep (st : Settings) : GateCall → Settings × GateResult
  | GateCall.authUser r => (st, GateResult.authR (AuthService.authenticate_user st r))
  | GateCall.validate t => (st, GateResult.boolR (AuthService.validate_token st t))
  | GateCall.verify c => (st, GateResult.tokenR (verify_access_key st c))
  | GateCall.optionalAuth c => (st, GateResult.optR (optional_auth st c))

/-- Run a sequence of gate calls, threading the configuration state. -/
def runGate (st : Settings) : List GateCall → Settings × List GateResult
  | [] => (st, [])
  | c :: cs =>
    ((runGate (GateStep st c).1 cs).1,
      (GateStep st c).2 :: (runGate (GateStep st c).1 cs).2)

/-! Helper lemmas shared by the claim theorems. -/

/-- One gate call never changes the configuration state. -/
theorem GateStep_fst (st : Settings) (c : GateCall) : (GateStep st c).1 = st := by
  cases c <;> rfl

/-- A run of gate calls never changes the configuration state. -/
theorem runGate_fst (st : Settings) (cs : List GateCall) : (runGate st cs).1 = st := by
  induction cs generalizing st with
  | nil => rfl
  | cons c cs ih => simpa [runGate, GateStep_fst] using ih st

/-- A call appended to a run yields the result it yields against the initial
configuration. -/
theorem runGate_snd_append (st : Settings) (cs : List GateCall) (c : GateCall) :
    (runGate st (cs ++ [c])).2 = (runGate st cs).2 ++ [(GateStep st c).2] := by
  induction cs generalizing st with
  | nil => simp [runGate, GateStep_fst]
  | cons d ds ih => simp [runGate, GateStep_fst, ih]

/-- validate_token accepts exactly the configured, non-empty secret. -/
theorem validate_token_eq (st : Settings) (tkn : String) :
    AuthService.validate_token st tkn = true ↔ st.ACCESS_KEY = some tkn ∧ tkn ≠ "" := by
  obtain ⟨key⟩ := st
  constructor
  · intro h
    cases key with
    | none => simp [AuthService.validate_token, Settings.is_auth_configured, pyTruthy] at h
    | some k =>
      by_cases hk : k = ""
      · subst hk
        simp [AuthService.validate_token, Settings.is_auth_configured, pyTruthy] at h
      · have htk : tkn = k := by
          simpa [AuthService.validate_token, Settings.is_auth_configured, pyTruthy, hk] using h
        subst htk
        exact ⟨rfl, hk⟩
  · rintro ⟨h, hne⟩
    change key = some tkn at h
    subst h
    simp [AuthService.validate_token, Settings.is_auth_configured, pyTruthy, hne]

/-! Claim theorems. -/

/-- Claim C1: with a configured non-empty secret S, authenticate_user grants
(echoing the submitted credential as the token) exactly when the submitted
credential equals S under exact string equality, and fails with status 403
on every other credential. -/
theorem authenticate_user_granted_iff_match (S C : String) (hS : S ≠ "") :
    (C = S →
      AuthService.authenticate_user ⟨some S⟩ ⟨C⟩ =
        Except.ok ⟨true, "Authentication successful", some C⟩) ∧
    (C ≠ S →
      AuthService.authenticate_user ⟨some S⟩ ⟨C⟩ =
        Except.error ⟨403, "Invalid access key"⟩) := by
  constructor
  · rintro rfl
    simp [AuthService.authenticate_user, Settings.is_auth_configured, pyTruthy, hS]
  · intro hC
    simp [AuthService.authenticate_user, Settings.is_auth_configured, pyTruthy, hS, hC]

/-- Witness for C1 at secret abc123 with a matching and a mismatching
credential. -/
theorem authenticate_user_granted_iff_match_witness :
    ("abc123" : String) ≠ "" ∧
    AuthService.authenticate_user ⟨some "abc123"⟩ ⟨"abc123"⟩ =
      Except.ok ⟨true, "Authentication successful", some "abc123"⟩ ∧
    AuthService.authenticate_user ⟨some "abc123"⟩ ⟨"wrong"⟩ =
      Except.error ⟨403, "Invalid access key"⟩ :=
  ⟨by decide,
    (authenticate_user_granted_iff_match "abc123" "abc123" (by decide)).1 rfl,
    (authenticate_user_granted_iff_match "abc123" "wrong" (by decide)).2 (by decide)⟩

/-- Claim C2: with no configured secret, authenticate_user and
verify_access_key fail with status 503 on every input; nothing is granted. -/
theorem unconfigured_always_503 (st : Settings) (h : st.is_auth_configured = false)
    (C : String) (cred : Option String) :
    AuthService.authenticate_user st ⟨C⟩ =
      Except.error ⟨503, "Authentication not configured. Please set ACCESS_KEY."⟩ ∧
    verify_access_key st cred =
      Except.error ⟨503, "Authentication not configured. Please set ACCESS_KEY."⟩ := by
  constructor <;> simp [AuthService.authenticate_user, verify_access_key, h]

/-- Witness for C2 with no secret set and an arbitrary credential. -/
theorem unconfigured_always_503_witness :
    Settings.is_auth_configured ⟨none⟩ = false ∧
    (AuthService.authenticate_user ⟨none⟩ ⟨"x"⟩ =
      Except.error ⟨503, "Authentication not configured. Please set ACCESS_KEY."⟩ ∧
    verify_access_key ⟨none⟩ (some "x") =
      Except.error ⟨503, "Authentication not configured. Please set ACCESS_KEY."⟩) :=
  ⟨rfl, unconfigured_always_503 ⟨none⟩ rfl "x" (some "x")⟩

/-- Claim C3: verify_access_key decides failures in fixed precedence order:
503 when no secret is configured, then 401 when no credential is presented,
then 403 when the presented credential is rejected; in particular a
configured gate with no credential always yields 401. -/
theorem verify_access_key_precedence (st : Settings) (cred : Option String) :
    (st.is_auth_configured = false →
      verify_access_key st cred =
        Except.error ⟨503, "Authentication not configured. Please set ACCESS_KEY."⟩) ∧
    (st.is_auth_configured = true → cred = none →
      verify_access_key st cred =
        Except.error ⟨401, "Authentication required. Please provide access key."⟩) ∧
    (∀ c, st.is_auth_configured = true → cred = some c →
      AuthService.validate_token st c = false →
      verify_access_key st cred = Except.error ⟨403, "Invalid access key."⟩) := by
  refine ⟨fun h => ?_, fun h hc => ?_, fun c h hc hv => ?_⟩
  · simp [verify_access_key, h]
  · subst hc
    simp [verify_access_key, h]
  · subst hc
    simp [verify_access_key, h, hv]

/-- Witness for C3: configured secret abc123, no credential presented. -/
theorem verify_access_key_precedence_witness :
    Settings.is_auth_configured ⟨some "abc123"⟩ = true ∧
    verify_access_key ⟨some "abc123"⟩ none =
      Except.error ⟨401, "Authentication required. Please provide access key."⟩ :=
  ⟨rfl, (verify_access_key_precedence ⟨some "abc123"⟩ none).2.1 rfl rfl⟩

/-- Claim C4: optional_auth (a total function in this embedding) returns
some t exactly when verify_access_key on the same configuration and
credentials returns t granted; in every other case it returns none. -/
theorem optional_auth_some_iff_verify_ok (st : Settings) (cred : Option String) (t : String) :
    optional_auth st cred = some t ↔ verify_access_key st cred = Except.ok t := by
  cases cred with
  | none =>
    by_cases h : st.is_auth_configured <;>
      simp [optional_auth, verify_access_key, h]
  | some c =>
    by_cases h : st.is_auth_configured
    · by_cases hv : AuthService.validate_token st c <;>
        simp [optional_auth, verify_access_key, h, hv]
    · simp [optional_auth, verify_access_key, h]

/-- Witness for C4 at secret abc123 with the matching credential. -/
theorem optional_auth_some_iff_verify_ok_witness :
    (optional_auth ⟨some "abc123"⟩ (some "abc123") = some "abc123" ↔
      verify_access_key ⟨some "abc123"⟩ (some "abc123") = Except.ok "abc123") :=
  optional_auth_some_iff_verify_ok ⟨some "abc123"⟩ (some "abc123") "abc123"

/-- Claim C5: an empty-string secret is indistinguishable from no secret:
the gate reports not configured, and authenticate_user and verify_access_key
fail with 503 for every credential, including the empty string itself. -/
theorem empty_secret_behaves_unconfigured (C : String) (cred : Option String) :
    Settings.is_auth_configured ⟨some ""⟩ = false ∧
    AuthService.authenticate_user ⟨some ""⟩ ⟨C⟩ =
      Except.error ⟨503, "Authentication not configured. Please set ACCESS_KEY."⟩ ∧
    verify_access_key ⟨some ""⟩ cred =
      Except.error ⟨503, "Authentication not configured. Please set ACCESS_KEY."⟩ := by
  refine ⟨rfl, ?_, ?_⟩ <;>
    simp [AuthService.authenticate_user, verify_access_key,
      Settings.is_auth_configured, pyTruthy]

/-- Claim C6: with secret abc123 and submitted credential abc123,
authenticate_user returns authenticated true with token abc123; in general
every granted login echoes the submitted credential back verbatim as the
token. -/
theorem authenticate_user_echoes_token :
    AuthService.authenticate_user ⟨some "abc123"⟩ ⟨"abc123"⟩ =
      Except.ok ⟨true, "Authentication successful", some "abc123"⟩ ∧
    ∀ (st : Settings) (C : String) (r : AuthResponse),
      AuthService.authenticate_user st ⟨C⟩ = Except.ok r → r.token = some C := by
  constructor
  · rfl
  · intro st C r h
    unfold AuthService.authenticate_user at h
    split at h
    · exact absurd h (by simp)
    · split at h
      · injection h with h
        subst h
        rfl
      · exact absurd h (by simp)

/-- Witness for C6: the echo law applied at the abc123 scenario. -/
theorem authenticate_user_echoes_token_witness :
    AuthService.authenticate_user ⟨some "abc123"⟩ ⟨"abc123"⟩ =
      Except.ok ⟨true, "Authentication successful", some "abc123"⟩ ∧
    (⟨true, "Authentication successful", some "abc123"⟩ : AuthResponse).token =
      some "abc123" :=
  ⟨authenticate_user_echoes_token.1,
    authenticate_user_echoes_token.2 ⟨some "abc123"⟩ "abc123"
      ⟨true, "Authentication successful", some "abc123"⟩ rfl⟩

/-- Claim C7: the gate is stateless: one call leaves the configuration
unchanged, any sequence of calls leaves it unchanged, and a call appended
after any prior activity produces exactly the decision it produces against
the initial configuration — no hidden counter or lockout state. -/
theorem gate_stateless (st : Settings) (cs : List GateCall) (c : GateCall) :
    (GateStep st c).1 = st ∧
    (runGate st cs).1 = st ∧
    (runGate st (cs ++ [c])).2 = (runGate st cs).2 ++ [(GateStep st c).2] :=
  ⟨GateStep_fst st c, runGate_fst st cs, runGate_snd_append st cs c⟩

/-- Claim C8: the legacy monolithic gate in server.py and the modular
backend gate are behaviorally equivalent: same outcome (token or identical
HTTPException) for every configuration, guard input, and login request. -/
theorem server_backend_equivalent (key : Option String) (cred : Option String)
    (r : AuthRequest) :
    Server.verify_access_key key cred = verify_access_key ⟨key⟩ cred ∧
    Server.authenticate key r = AuthService.authenticate_user ⟨key⟩ r := by
  constructor
  · cases key with
    | none =>
      simp [Server.verify_access_key, verify_access_key,
        Settings.is_auth_configured, pyTruthy]
    | some k =>
      by_cases hk : k = ""
      · simp [Server.verify_access_key, verify_access_key,
          Settings.is_auth_configured, pyTruthy, hk]
      · cases cred with
        | none =>
          simp [Server.verify_access_key, verify_access_key,
            Settings.is_auth_configured, pyTruthy, hk]
        | some c =>
          by_cases hc : c = k <;>
            simp [Server.verify_access_key, verify_access_key,
              AuthService.validate_token, Settings.is_auth_configured,
              pyTruthy, hk, hc]
  · cases key with
    | none =>
      simp [Server.authenticate, AuthService.authenticate_user,
        Settings.is_auth_configured, pyTruthy]
    | some k =>
      by_cases hk : k = ""
      · simp [Server.authenticate, AuthService.authenticate_user,
          Settings.is_auth_configured, pyTruthy, hk]
      · by_cases hc : r.access_key = k <;>
          simp [Server.authenticate, AuthService.authenticate_user,
            Settings.is_auth_configured, pyTruthy, hk, hc]

/-- Claim C9: whenever a guard succeeds — verify_access_key returns token t
or optional_auth returns some t — t equals the configured secret and that
secret is non-empty; no other credential passes through. -/
theorem guard_success_token_is_secret (st : Settings) (cred : Option String)
    (t : String) :
    (verify_access_key st cred = Except.ok t → st.ACCESS_KEY = some t ∧ t ≠ "") ∧
    (optional_auth st cred = some t → st.ACCESS_KEY = some t ∧ t ≠ "") := by
  constructor
  · intro h
    cases cred with
    | none =>
      by_cases hcfg : st.is_auth_configured <;>
        simp [verify_access_key, hcfg] at h
    | some c =>
      by_cases hcfg : st.is_auth_configured
      · by_cases hv : AuthService.validate_token st c
        · have hct : c = t := by
            simpa [verify_access_key, hcfg, hv] using h
          subst hct
          exact (validate_token_eq st c).1 hv
        · simp [verify_access_key, hcfg, hv] at h
      · simp [verify_access_key, hcfg] at h
  · intro h
    cases cred with
    | none => simp [optional_auth] at h
    | some c =>
      by_cases hcfg : st.is_auth_configured
      · by_cases hv : AuthService.validate_token st c
        · have hct : c = t := by
            simpa [optional_auth, hcfg, hv] using h
          subst hct
          exact (validate_token_eq st c).1 hv
        · simp [optional_auth, hcfg, hv] at h
      · simp [optional_auth, hcfg] at h

/-- Witness for C9 at secret abc123 with the matching credential. -/
theorem guard_success_token_is_secret_witness :
    Settings.ACCESS_KEY ⟨some "abc123"⟩ = some "abc123" ∧ "abc123" ≠ "" :=
  (guard_success_token_is_secret ⟨some "abc123"⟩ (some "abc123") "abc123").1 rfl

/-- Claim C10: every AuthResponse that authenticate_user actually returns
(rather than an exception it raises) has authenticated true, message
"Authentication successful", and a non-None token; failures are signaled
exclusively by raising. -/
theorem authenticate_user_ok_shape (st : Settings) (r : AuthRequest)
    (resp : AuthResponse) :
    AuthService.authenticate_user st r = Except.ok resp →
    resp.authenticated = true ∧ resp.message = "Authentication successful" ∧
      resp.token ≠ none := by
  intro h
  unfold AuthService.authenticate_user at h
  split at h
  · exact absurd h (by simp)
  · split at h
    · injection h with h
      subst h
      simp
    · exact absurd h (by simp)

/-- Witness for C10 at the abc123 scenario. -/
theorem authenticate_user_ok_shape_witness :
    (⟨true, "Authentication successful", some "abc123"⟩ : AuthResponse).authenticated
        = true ∧
    (⟨true, "Authentication successful", some "abc123"⟩ : AuthResponse).message
        = "Authentication successful" ∧
    (⟨true, "Authentication successful", some "abc123"⟩ : AuthResponse).token
        ≠ none :=
  authenticate_user_ok_shape ⟨some "abc123"⟩ ⟨"abc123"⟩
    ⟨true, "Authentication successful", some "abc123"⟩ rfl
